import Mathlib

/-
  Verification development for the FinSight personal-finance application.

  The data layer (shared drizzle schema, SqliteStorage, Express route
  handlers) and the client-side derived metrics are shallowly embedded as
  executable Lean definitions.  SQLite REAL amounts are modelled as
  rationals; TEXT dates and creation timestamps whose lexicographic order
  is chronological (ISO-8601) are modelled as naturals; SQL result rows
  are Lean lists.
-/

namespace FinSight

/-- Row of the `transactions` table (shared schema `transactions`). -/
structure Transaction where
  id : String
  userId : String
  description : String
  amount : ℚ
  category : String
  type : String
  date : Nat
  createdAt : Nat
deriving Repr, DecidableEq

/-- Row of the `investments` table (shared schema `investments`). -/
structure Investment where
  id : String
  userId : String
  symbol : String
  name : String
  type : String
  shares : ℚ
  purchasePrice : ℚ
  currentPrice : ℚ
  purchaseDate : Nat
  createdAt : Nat
deriving Repr, DecidableEq

/-- Row of the `goals` table (shared schema `goals`). -/
structure Goal where
  id : String
  userId : String
  title : String
  description : Option String
  targetAmount : ℚ
  currentAmount : ℚ
  targetDate : Nat
  category : String
  createdAt : Nat
deriving Repr, DecidableEq

/-- Row of the `savings_tips` table (shared schema `savingsTips`). -/
structure SavingsTip where
  id : String
  userId : String
  category : String
  recommendation : String
  potentialSavings : ℚ
  confidence : ℚ
  isActive : Bool
  createdAt : Nat
deriving Repr, DecidableEq

/-- Row of the `users` table (shared schema `users`); `createdAt` is the
ISO timestamp string produced by `new Date().toISOString()`. -/
structure User where
  id : String
  email : String
  password : String
  firstName : String
  lastName : String
  createdAt : String
deriving Repr, DecidableEq

/-- Contents of the SQLite database `finsight.db`: one list per table. -/
structure Storage where
  users : List User
  transactions : List Transaction
  investments : List Investment
  goals : List Goal
  savingsTips : List SavingsTip
deriving Repr, DecidableEq

/-- Insert `x` into a list assumed sorted by `key` in descending order,
keeping it sorted (helper for the model of SQL `ORDER BY key DESC`). -/
def insertKeyDesc {α β : Type} [LinearOrder β] (key : α → β) (x : α) :
    List α → List α
  | [] => [x]
  | y :: ys => if key y ≤ key x then x :: y :: ys else y :: insertKeyDesc key x ys

/-- Sort a list by `key` in descending order (model of `ORDER BY key DESC`). -/
def sortKeyDesc {α β : Type} [LinearOrder β] (key : α → β) :
    List α → List α
  | [] => []
  | x :: xs => insertKeyDesc key x (sortKeyDesc key xs)

theorem insertKeyDesc_perm {α β : Type} [LinearOrder β] (key : α → β)
    (x : α) (l : List α) : (insertKeyDesc key x l).Perm (x :: l) := by
  induction l with
  | nil => simp [insertKeyDesc]
  | cons y ys ih =>
      simp only [insertKeyDesc]
      split
      · exact List.Perm.refl _
      · exact (ih.cons y).trans (List.Perm.swap x y ys)

theorem sortKeyDesc_perm {α β : Type} [LinearOrder β] (key : α → β)
    (l : List α) : (sortKeyDesc key l).Perm l := by
  induction l with
  | nil => simp [sortKeyDesc]
  | cons x xs ih =>
      exact (insertKeyDesc_perm key x (sortKeyDesc key xs)).trans (ih.cons x)

theorem mem_insertKeyDesc {α β : Type} [LinearOrder β] (key : α → β)
    (x z : α) (l : List α) :
    z ∈ insertKeyDesc key x l ↔ z = x ∨ z ∈ l := by
  rw [(insertKeyDesc_perm key x l).mem_iff, List.mem_cons]

theorem mem_sortKeyDesc {α β : Type} [LinearOrder β] (key : α → β)
    (z : α) (l : List α) : z ∈ sortKeyDesc key l ↔ z ∈ l :=
  (sortKeyDesc_perm key l).mem_iff

theorem insertKeyDesc_pairwise {α β : Type} [LinearOrder β] (key : α → β)
    (x : α) (l : List α)
    (h : List.Pairwise (fun a b => key b ≤ key a) l) :
    List.Pairwise (fun a b => key b ≤ key a) (insertKeyDesc key x l) := by
  induction l with
  | nil => simp [insertKeyDesc]
  | cons y ys ih =>
      rw [List.pairwise_cons] at h
      obtain ⟨hy, hys⟩ := h
      simp only [insertKeyDesc]
      split
      · rename_i hle
        refine List.pairwise_cons.mpr ⟨?_, List.pairwise_cons.mpr ⟨hy, hys⟩⟩
        intro z hz
        rcases List.mem_cons.mp hz with rfl | hz'
        · exact hle
        · exact le_trans (hy z hz') hle
      · rename_i hgt
        refine List.pairwise_cons.mpr ⟨?_, ih hys⟩
        intro z hz
        rcases (mem_insertKeyDesc key x z ys).mp hz with rfl | hz'
        · exact le_of_not_le hgt
        · exact hy z hz'

theorem sortKeyDesc_pairwise {α β : Type} [LinearOrder β] (key : α → β)
    (l : List α) :
    List.Pairwise (fun a b => key b ≤ key a) (sortKeyDesc key l) := by
  induction l with
  | nil => simp [sortKeyDesc]
  | cons x xs ih => exact insertKeyDesc_pairwise key x (sortKeyDesc key xs) ih

/-- Shape accepted by `insertUserSchema` (drizzle insert schema for
`users` omitting `id` and `createdAt`). -/
structure InsertUser where
  email : String
  password : String
  firstName : String
  lastName : String
deriving Repr, DecidableEq

/-- Shape accepted by `insertTransactionSchema` (omits `id`, `createdAt`). -/
structure InsertTransaction where
  userId : String
  description : String
  amount : ℚ
  category : String
  type : String
  date : Nat
deriving Repr, DecidableEq

/-- Shape accepted by `insertInvestmentSchema` (omits `id`, `createdAt`). -/
structure InsertInvestment where
  userId : String
  symbol : String
  name : String
  type : String
  shares : ℚ
  purchasePrice : ℚ
  currentPrice : ℚ
  purchaseDate : Nat
deriving Repr, DecidableEq

/-- Shape accepted by `insertGoalSchema` (omits `id`, `createdAt`);
`description` is nullable and `currentAmount` carries the column default 0. -/
structure InsertGoal where
  userId : String
  title : String
  description : Option String
  targetAmount : ℚ
  currentAmount : ℚ
  targetDate : Nat
  category : String
deriving Repr, DecidableEq

/-- SqliteStorage.getUser: `select ... where eq(users.id, id) limit 1`. -/
def getUser (s : Storage) (id : String) : Option User :=
  s.users.find? (fun u => u.id == id)

/-- SqliteStorage.getUserByEmail: `select ... where eq(users.email, email)
limit 1`. -/
def getUserByEmail (s : Storage) (email : String) : Option User :=
  s.users.find? (fun u => u.email == email)

/-- SqliteStorage.createUser: spreads the insert shape, assigns a fresh id
(`randomUUID`, passed in as `freshId`) and `createdAt` (passed in as `now`),
then inserts.  Returns the created row and the new storage state. -/
def createUser (s : Storage) (iu : InsertUser) (freshId : String)
    (now : String) : User × Storage :=
  let user : User :=
    { id := freshId, email := iu.email, password := iu.password,
      firstName := iu.firstName, lastName := iu.lastName, createdAt := now }
  (user, { s with users := s.users ++ [user] })

/-- SqliteStorage.getUserTransactions: filter by `userId`, order by `date`
descending, apply the result limit; the TypeScript parameter default
`limit = 50` applies when the caller passes no limit (`none`). -/
def getUserTransactions (s : Storage) (userId : String)
    (limitOpt : Option Nat) : List Transaction :=
  (sortKeyDesc (fun t => t.date)
    (s.transactions.filter (fun t => t.userId == userId))).take
    (limitOpt.getD 50)

/-- SqliteStorage.getTransaction: single row matching both `id` and
`userId`, absent otherwise. -/
def getTransaction (s : Storage) (id userId : String) : Option Transaction :=
  s.transactions.find? (fun t => t.id == id && t.userId == userId)

/-- SqliteStorage.createTransaction: fresh id and creation stamp, insert,
return the created row. -/
def createTransaction (s : Storage) (it : InsertTransaction)
    (freshId : String) (now : Nat) : Transaction × Storage :=
  let t : Transaction :=
    { id := freshId, userId := it.userId, description := it.description,
      amount := it.amount, category := it.category, type := it.type,
      date := it.date, createdAt := now }
  (t, { s with transactions := s.transactions ++ [t] })

/-- Partial patch accepted by `insertTransactionSchema.partial()`. -/
structure TransactionPatch where
  userId : Option String
  description : Option String
  amount : Option ℚ
  category : Option String
  type : Option String
  date : Option Nat
deriving Repr, DecidableEq

/-- The empty patch (request body `{}`): every field absent. -/
def emptyTransactionPatch : TransactionPatch :=
  { userId := none, description := none, amount := none, category := none,
    type := none, date := none }

/-- Field-wise effect of drizzle `.set(updates)` on one matched row:
present patch fields replace the stored ones. -/
def applyTransactionPatch (p : TransactionPatch) (t : Transaction) :
    Transaction :=
  { t with
    userId := p.userId.getD t.userId,
    description := p.description.getD t.description,
    amount := p.amount.getD t.amount,
    category := p.category.getD t.category,
    type := p.type.getD t.type,
    date := p.date.getD t.date }

/-- SqliteStorage.updateTransaction: `update ... set(updates) where
and(eq(id), eq(userId))`, then re-read via `getTransaction`. -/
def updateTransaction (s : Storage) (id userId : String)
    (p : TransactionPatch) : Option Transaction × Storage :=
  let s2 : Storage :=
    { s with transactions := s.transactions.map (fun t =>
        if t.id == id && t.userId == userId then applyTransactionPatch p t
        else t) }
  (getTransaction s2 id userId, s2)

/-- SqliteStorage.deleteTransaction: `delete ... where and(eq(id),
eq(userId))`; success is `result.changes > 0`, i.e. some row was removed. -/
def deleteTransaction (s : Storage) (id userId : String) : Bool × Storage :=
  let remaining :=
    s.transactions.filter (fun t => !(t.id == id && t.userId == userId))
  (decide (remaining.length < s.transactions.length),
   { s with transactions := remaining })

/-- SqliteStorage.getUserInvestments: filter by `userId`, order by
`createdAt` descending, no limit. -/
def getUserInvestments (s : Storage) (userId : String) : List Investment :=
  sortKeyDesc (fun i => i.createdAt)
    (s.investments.filter (fun i => i.userId == userId))

/-- SqliteStorage.createInvestment. -/
def createInvestment (s : Storage) (ii : InsertInvestment)
    (freshId : String) (now : Nat) : Investment × Storage :=
  let inv : Investment :=
    { id := freshId, userId := ii.userId, symbol := ii.symbol,
      name := ii.name, type := ii.type, shares := ii.shares,
      purchasePrice := ii.purchasePrice, currentPrice := ii.currentPrice,
      purchaseDate := ii.purchaseDate, createdAt := now }
  (inv, { s with investments := s.investments ++ [inv] })

/-- SqliteStorage.getUserGoals: filter by `userId`, order by `createdAt`
descending, no limit. -/
def getUserGoals (s : Storage) (userId : String) : List Goal :=
  sortKeyDesc (fun g => g.createdAt)
    (s.goals.filter (fun g => g.userId == userId))

/-- SqliteStorage.createGoal. -/
def createGoal (s : Storage) (ig : InsertGoal) (freshId : String)
    (now : Nat) : Goal × Storage :=
  let g : Goal :=
    { id := freshId, userId := ig.userId, title := ig.title,
      description := ig.description, targetAmount := ig.targetAmount,
      currentAmount := ig.currentAmount, targetDate := ig.targetDate,
      category := ig.category, createdAt := now }
  (g, { s with goals := s.goals ++ [g] })

/-- SqliteStorage.getUserSavingsTips: filter by `userId` AND
`isActive = true`, order by `confidence` descending, no limit. -/
def getUserSavingsTips (s : Storage) (userId : String) : List SavingsTip :=
  sortKeyDesc (fun t => t.confidence)
    (s.savingsTips.filter (fun t => t.userId == userId && t.isActive))

/-- Modelled from the spec: the Credential Service `hash` operation lives
in `server/auth.ts`, which is not among the provided sources; only the
digest's functional association with the submitted password is modelled
(one-way/salting properties are outside a shallow embedding). -/
def hashPassword (password : String) : String :=
  String.append "digest." password

/-- Modelled from the spec: the Credential Service `verify` operation
(`server/auth.ts`, not among the provided sources): a password verifies
against exactly its own digest. -/
def verifyPassword (password digest : String) : Bool :=
  digest == hashPassword password

/-- Modelled from the spec: the Credential Service `issueToken` operation
(`server/auth.ts`, not among the provided sources): the token is a signed
credential determined by the user identifier; expiry and signature are
outside a shallow embedding. -/
def generateToken (userId : String) : String :=
  String.append "token." userId

/-- Raw JSON request body for registration: each expected field may be
absent (`none`); `insertUserSchema.parse` throws when one is missing. -/
structure RegisterBody where
  email : Option String
  password : Option String
  firstName : Option String
  lastName : Option String
deriving Repr, DecidableEq

/-- Result of `insertUserSchema.parse(req.body)`: succeeds exactly when
every required field is present (string-format refinements of zod are
abstracted away). -/
def parseInsertUser (b : RegisterBody) : Option InsertUser :=
  match b.email, b.password, b.firstName, b.lastName with
  | some e, some p, some f, some l =>
      some { email := e, password := p, firstName := f, lastName := l }
  | _, _, _, _ => none

/-- The JSON payload sent for a user after `const \x7b password, ...
userWithoutPassword \x7d = user`: every stored field except the password
digest, as key/value pairs. -/
def stripPassword (u : User) : List (String × String) :=
  [("id", u.id), ("email", u.email), ("firstName", u.firstName),
   ("lastName", u.lastName), ("createdAt", u.createdAt)]

/-- HTTP response of the three auth endpoints: status code, the user
payload when one is sent, and the token when one is issued. -/
structure AuthResponse where
  status : Nat
  user : Option (List (String × String))
  token : Option String
deriving Repr, DecidableEq

/-- POST /api/auth/register: parse the body, reject an existing email with
400, otherwise hash the password, create the user, issue a token, and
answer with the password-stripped user and the token. -/
def registerRoute (s : Storage) (body : RegisterBody) (freshId : String)
    (now : String) : AuthResponse × Storage :=
  match parseInsertUser body with
  | none => ({ status := 400, user := none, token := none }, s)
  | some userData =>
      match getUserByEmail s userData.email with
      | some _ => ({ status := 400, user := none, token := none }, s)
      | none =>
          let hashed := hashPassword userData.password
          let created := createUser s { userData with password := hashed }
            freshId now
          ({ status := 200, user := some (stripPassword created.1),
             token := some (generateToken created.1.id) }, created.2)

/-- Raw JSON request body for login. -/
structure LoginBody where
  email : Option String
  password : Option String
deriving Repr, DecidableEq

/-- Result of `loginSchema.parse(req.body)`: both fields present and the
password at least 6 characters (the zod email-format regex is abstracted
away). -/
def parseLogin (b : LoginBody) : Option (String × String) :=
  match b.email, b.password with
  | some e, some p => if 6 ≤ p.length then some (e, p) else none
  | _, _ => none

/-- POST /api/auth/login: parse, look the user up by email, verify the
password, then answer with the password-stripped user and a token;
unknown email or failed verification gives 401. -/
def loginRoute (s : Storage) (body : LoginBody) : AuthResponse :=
  match parseLogin body with
  | none => { status := 400, user := none, token := none }
  | some (email, password) =>
      match getUserByEmail s email with
      | none => { status := 401, user := none, token := none }
      | some user =>
          if verifyPassword password user.password then
            { status := 200, user := some (stripPassword user),
              token := some (generateToken user.id) }
          else { status := 401, user := none, token := none }

/-- GET /api/auth/me: the authenticated caller's identifier (set by the
token middleware) is looked up; 404 when absent, otherwise the
password-stripped user with no token. -/
def meRoute (s : Storage) (authUserId : String) : AuthResponse :=
  match getUser s authUserId with
  | none => { status := 404, user := none, token := none }
  | some user =>
      { status := 200, user := some (stripPassword user), token := none }

/-- Raw JSON request body for POST /api/transactions; the client may send
any subset of fields, including its own `userId`. -/
structure TransactionBody where
  userId : Option String
  description : Option String
  amount : Option ℚ
  category : Option String
  type : Option String
  date : Option Nat
deriving Repr, DecidableEq

/-- Result of `insertTransactionSchema.parse(\x7b ...req.body, userId \x7d)`:
the object spread writes the authenticated `userId` last, so any
client-supplied `userId` is overwritten before validation; the remaining
required fields must be present. -/
def parseInsertTransaction (b : TransactionBody) (injectedUserId : String) :
    Option InsertTransaction :=
  match b.description, b.amount, b.category, b.type, b.date with
  | some d, some a, some c, some ty, some dt =>
      some { userId := injectedUserId, description := d, amount := a,
             category := c, type := ty, date := dt }
  | _, _, _, _, _ => none

/-- POST /api/transactions: parse with the caller's id injected, store on
success (answering with the created row), 400 with storage untouched on a
parse failure. -/
def createTransactionRoute (s : Storage) (authUserId : String)
    (body : TransactionBody) (freshId : String) (now : Nat) :
    Option Transaction × Storage :=
  match parseInsertTransaction body authUserId with
  | none => (none, s)
  | some it =>
      let created := createTransaction s it freshId now
      (some created.1, created.2)

/-- Raw JSON request body for POST /api/investments. -/
structure InvestmentBody where
  userId : Option String
  symbol : Option String
  name : Option String
  type : Option String
  shares : Option ℚ
  purchasePrice : Option ℚ
  currentPrice : Option ℚ
  purchaseDate : Option Nat
deriving Repr, DecidableEq

/-- Result of `insertInvestmentSchema.parse(\x7b ...req.body, userId \x7d)`:
the caller's id overwrites any client-supplied one. -/
def parseInsertInvestment (b : InvestmentBody) (injectedUserId : String) :
    Option InsertInvestment :=
  match b.symbol, b.name, b.type, b.shares, b.purchasePrice,
      b.currentPrice, b.purchaseDate with
  | some sy, some n, some ty, some sh, some pp, some cp, some pd =>
      some { userId := injectedUserId, symbol := sy, name := n, type := ty,
             shares := sh, purchasePrice := pp, currentPrice := cp,
             purchaseDate := pd }
  | _, _, _, _, _, _, _ => none

/-- POST /api/investments. -/
def createInvestmentRoute (s : Storage) (authUserId : String)
    (body : InvestmentBody) (freshId : String) (now : Nat) :
    Option Investment × Storage :=
  match parseInsertInvestment body authUserId with
  | none => (none, s)
  | some ii =>
      let created := createInvestment s ii freshId now
      (some created.1, created.2)

/-- Raw JSON request body for POST /api/goals. -/
structure GoalBody where
  userId : Option String
  title : Option String
  description : Option String
  targetAmount : Option ℚ
  currentAmount : Option ℚ
  targetDate : Option Nat
  category : Option String
deriving Repr, DecidableEq

/-- Result of `insertGoalSchema.parse(\x7b ...req.body, userId \x7d)`: the
caller's id overwrites any client-supplied one; `description` is optional
and `currentAmount` falls back to the column default 0. -/
def parseInsertGoal (b : GoalBody) (injectedUserId : String) :
    Option InsertGoal :=
  match b.title, b.targetAmount, b.targetDate, b.category with
  | some t, some ta, some td, some c =>
      some { userId := injectedUserId, title := t,
             description := b.description, targetAmount := ta,
             currentAmount := b.currentAmount.getD 0, targetDate := td,
             category := c }
  | _, _, _, _ => none

/-- POST /api/goals. -/
def createGoalRoute (s : Storage) (authUserId : String) (body : GoalBody)
    (freshId : String) (now : Nat) : Option Goal × Storage :=
  match parseInsertGoal body authUserId with
  | none => (none, s)
  | some ig =>
      let created := createGoal s ig freshId now
      (some created.1, created.2)

/-- Dashboard `totalIncome`: `.filter(type === "income").reduce((sum, t)
=> sum + t.amount, 0)`. -/
def totalIncome (ts : List Transaction) : ℚ :=
  List.foldl (fun sum t => sum + t.amount) 0
    (ts.filter (fun t => t.type == "income"))

/-- Dashboard `totalExpenses`: `.filter(type === "expense").reduce((sum,
t) => sum + t.amount, 0)`. -/
def totalExpenses (ts : List Transaction) : ℚ :=
  List.foldl (fun sum t => sum + t.amount) 0
    (ts.filter (fun t => t.type == "expense"))

/-- Dashboard `totalBalance = totalIncome - totalExpenses`. -/
def totalBalance (ts : List Transaction) : ℚ :=
  totalIncome ts - totalExpenses ts

/-- Dashboard `portfolioValue`: `.reduce((sum, inv) => sum + inv.shares *
inv.currentPrice, 0)`. -/
def portfolioValue (invs : List Investment) : ℚ :=
  List.foldl (fun sum inv => sum + inv.shares * inv.currentPrice) 0 invs

/-- Dashboard `portfolioGain`: `.reduce((sum, inv) => sum +
(inv.currentPrice - inv.purchasePrice) * inv.shares, 0)`. -/
def portfolioGain (invs : List Investment) : ℚ :=
  List.foldl
    (fun sum inv => sum + (inv.currentPrice - inv.purchasePrice) * inv.shares)
    0 invs

/-- Goals page `progress`: `goal.targetAmount > 0 ? (goal.currentAmount /
goal.targetAmount) * 100 : 0` — no clamping is applied to this derived
value (only the rendered bar width is clamped). -/
def goalProgress (g : Goal) : ℚ :=
  if 0 < g.targetAmount then g.currentAmount / g.targetAmount * 100 else 0

/-- Goals page `remaining`: `goal.targetAmount - goal.currentAmount`. -/
def goalRemaining (g : Goal) : ℚ :=
  g.targetAmount - g.currentAmount

/-- Goals page progress-bar width styling: `Math.min(progress, 100)`. -/
def goalBarWidth (g : Goal) : ℚ :=
  min (goalProgress g) 100

/-- Formulation following the spec's words, for comparison with
`goalProgress`: progress% = min(currentAmount/targetAmount, 1) × 100. -/
def goalProgressSpec (g : Goal) : ℚ :=
  min (g.currentAmount / g.targetAmount) 1 * 100

/-- Case-insensitive-use substring test used by the upload handler's
categorizer (`desc.includes(pat)`), computed via `splitOn`: the pattern
occurs in `s` exactly when splitting on it yields more than one piece. -/
def strContainsSub (s pat : String) : Bool :=
  decide (1 < (s.splitOn pat).length)

/-- Upload handler auto-categorization: first matching keyword group over
the lower-cased description, defaulting to "Other". -/
def categorize (description : String) : String :=
  let desc := description.toLower
  if strContainsSub desc "food" || strContainsSub desc "restaurant" then
    "Food & Dining"
  else if strContainsSub desc "gas" || strContainsSub desc "uber" then
    "Transportation"
  else if strContainsSub desc "amazon" || strContainsSub desc "store" then
    "Shopping"
  else if strContainsSub desc "electric" || strContainsSub desc "utility" then
    "Bills & Utilities"
  else "Other"

/-- One parsed CSV row as the upload handler sees it. `amountParsed` is
the numeric outcome of `parseFloat(row.amount || row.debit || row.credit
|| 0)`: `some a` for a parsed number (0 when every alias is absent),
`none` for NaN from an unparseable field, which makes the row's insert
throw and the row be skipped. `dateField` is the first present of the
date column aliases. -/
structure CsvRow where
  description : Option String
  memo : Option String
  transaction : Option String
  amountParsed : Option ℚ
  dateField : Option Nat
deriving Repr, DecidableEq

/-- Upload handler per-row logic (routes.ts lines 363-384): description
from the first present alias defaulting to "Unknown", amount as the
absolute value of the parsed number, date defaulting to today, kind
"expense" exactly when the absolute amount is strictly positive and
"income" otherwise, category by keyword match; `none` when the row fails
(NaN amount) and is skipped. -/
def processCsvRow (userId : String) (today : Nat) (row : CsvRow) :
    Option InsertTransaction :=
  let description :=
    ((row.description.orElse (fun _ => row.memo)).orElse
      (fun _ => row.transaction)).getD "Unknown"
  match row.amountParsed with
  | none => none
  | some a =>
      let amount := |a|
      let ty := if 0 < amount then "expense" else "income"
      some { userId := userId, description := description, amount := amount,
             category := categorize description, type := ty,
             date := row.dateField.getD today }

/-- Upload handler row loop: each row is processed in order; a row that
parses is stored via `createTransaction` (with a fresh id from the
supply `gen`) and counted, a failing row is silently skipped.  Returns
the `transactions_saved` count of the response together with the final
storage state. -/
def processCsvRows (userId : String) (today : Nat) (gen : Nat → String)
    (now : Nat) : List CsvRow → Nat → Storage → Nat × Storage
  | [], _, s => (0, s)
  | row :: rest, k, s =>
      match processCsvRow userId today row with
      | none => processCsvRows userId today gen now rest (k + 1) s
      | some it =>
          let created := createTransaction s it (gen k) now
          let tail := processCsvRows userId today gen now rest (k + 1)
            created.2
          (tail.1 + 1, tail.2)

/-- Folding addition of a projection over a list equals the starting value
plus the sum of the projected values. -/
theorem foldl_add_map_sum {α : Type} (f : α → ℚ) (l : List α) (a : ℚ) :
    List.foldl (fun sum x => sum + f x) a l = a + (l.map f).sum := by
  induction l generalizing a with
  | nil => simp
  | cons x xs ih => simp [ih, add_assoc]

/-- Summing `(currentPrice - purchasePrice) * shares` equals summing
`shares * (currentPrice - purchasePrice)`. -/
theorem map_mul_comm_sum (l : List Investment) :
    (l.map (fun i => (i.currentPrice - i.purchasePrice) * i.shares)).sum =
    (l.map (fun i => i.shares * (i.currentPrice - i.purchasePrice))).sum := by
  induction l with
  | nil => rfl
  | cons x xs ih =>
      rw [List.map_cons, List.map_cons, List.sum_cons, List.sum_cons, ih,
        mul_comm]

/-- The balance scenario of the spec: income 1000, expenses 300 and 200. -/
def balanceScenario : List Transaction :=
  [{ id := "t1", userId := "u", description := "salary", amount := 1000,
     category := "Income", type := "income", date := 1, createdAt := 1 },
   { id := "t2", userId := "u", description := "rent", amount := 300,
     category := "Bills & Utilities", type := "expense", date := 2,
     createdAt := 2 },
   { id := "t3", userId := "u", description := "groceries", amount := 200,
     category := "Food & Dining", type := "expense", date := 3,
     createdAt := 3 }]

/-- C3: the derived balance equals the sum of income amounts minus the sum
of expense amounts, and on the scenario set [income 1000, expense 300,
expense 200] it is 500. -/
theorem balance_is_income_minus_expenses (ts : List Transaction) :
    totalBalance ts =
      ((ts.filter (fun t => t.type == "income")).map
        (fun t => t.amount)).sum -
      ((ts.filter (fun t => t.type == "expense")).map
        (fun t => t.amount)).sum ∧
    totalBalance balanceScenario = 500 := by
  constructor
  · rw [totalBalance, totalIncome, totalExpenses, foldl_add_map_sum,
      foldl_add_map_sum, zero_add, zero_add]
  · norm_num [totalBalance, totalIncome, totalExpenses, balanceScenario,
      List.filter, List.foldl]

/-- The investment scenario of the spec: 10 shares bought at 100, now 150. -/
def investmentScenario : Investment :=
  { id := "i1", userId := "u", symbol := "ACME", name := "Acme Corp",
    type := "stock", shares := 10, purchasePrice := 100,
    currentPrice := 150, purchaseDate := 1, createdAt := 1 }

/-- C5: portfolio value is the sum of shares times current price,
portfolio gain is the sum of shares times the price difference, and the
scenario investment yields value 1500 and gain 500. -/
theorem portfolio_value_and_gain (invs : List Investment) :
    portfolioValue invs =
      (invs.map (fun i => i.shares * i.currentPrice)).sum ∧
    portfolioGain invs =
      (invs.map (fun i => i.shares * (i.currentPrice - i.purchasePrice))).sum ∧
    portfolioValue [investmentScenario] = 1500 ∧
    portfolioGain [investmentScenario] = 500 := by
  refine ⟨?_, ?_, ?_, ?_⟩
  · rw [portfolioValue, foldl_add_map_sum, zero_add]
  · rw [portfolioGain, foldl_add_map_sum, zero_add, map_mul_comm_sum]
  · norm_num [portfolioValue, investmentScenario, List.foldl]
  · norm_num [portfolioGain, investmentScenario, List.foldl]

/-- The goal scenario of the spec: target 1000, current 250. -/
def goalScenario : Goal :=
  { id := "g1", userId := "u", title := "Emergency Fund",
    description := none, targetAmount := 1000, currentAmount := 250,
    targetDate := 100, category := "savings", createdAt := 1 }

/-- A goal funded beyond its target: target 1000, current 1500. -/
def overfundedGoal : Goal :=
  { id := "g2", userId := "u", title := "Trip", description := none,
    targetAmount := 1000, currentAmount := 1500, targetDate := 100,
    category := "travel", createdAt := 2 }

/-- C4 counterexample: for a goal with target 1000 and current 1500 the
derived progress is 150, exceeding 100, while the claimed clamped formula
gives 100 — the code does not clamp the derived percentage. -/
theorem goal_progress_not_clamped :
    goalProgress overfundedGoal = 150 ∧
    goalProgressSpec overfundedGoal = 100 ∧
    100 < goalProgress overfundedGoal := by
  refine ⟨?_, ?_, ?_⟩ <;>
    norm_num [goalProgress, goalProgressSpec, overfundedGoal]

/-- C4 (amended): derived progress is (current/target) × 100 when the
target is positive (0 otherwise) with no clamping — only the rendered bar
width is clamped at 100 —, remaining is target − current, and the
scenario goal (target 1000, current 250) has progress 25 and remaining
750. -/
theorem goal_progress_and_remaining (g : Goal) :
    (0 < g.targetAmount →
      goalProgress g = g.currentAmount / g.targetAmount * 100) ∧
    goalRemaining g = g.targetAmount - g.currentAmount ∧
    goalBarWidth g = min (goalProgress g) 100 ∧
    goalProgress goalScenario = 25 ∧
    goalRemaining goalScenario = 750 := by
  refine ⟨fun h => ?_, rfl, rfl, ?_, ?_⟩
  · rw [goalProgress, if_pos h]
  · norm_num [goalProgress, goalScenario]
  · norm_num [goalRemaining, goalScenario]

/-- Witness for the amended C4 theorem at the scenario goal. -/
theorem goal_progress_and_remaining_witness :
    0 < goalScenario.targetAmount ∧
    goalProgress goalScenario =
      goalScenario.currentAmount / goalScenario.targetAmount * 100 :=
  ⟨by norm_num [goalScenario],
   (goal_progress_and_remaining goalScenario).1 (by norm_num [goalScenario])⟩

/-- C6: whenever the amount field parses to a number `a`, the stored
amount is `abs a`, the kind is "expense" exactly when that absolute
amount is strictly positive and "income" otherwise, and negating the
parsed amount leaves the produced transaction unchanged — the original
sign never influences the assigned kind. -/
theorem csv_kind_from_absolute_amount (userId : String) (today : Nat)
    (row : CsvRow) (a : ℚ) (h : row.amountParsed = some a) :
    (processCsvRow userId today row).isSome = true ∧
    (∀ it, processCsvRow userId today row = some it →
      it.amount = |a| ∧ (it.type = "expense" ↔ 0 < it.amount) ∧
      (it.type = "income" ↔ ¬ 0 < it.amount)) ∧
    processCsvRow userId today { row with amountParsed := some (-a) } =
      processCsvRow userId today row := by
  refine ⟨?_, ?_, ?_⟩
  · simp [processCsvRow, h]
  · intro it hit
    simp only [processCsvRow, h, Option.some.injEq] at hit
    subst hit
    refine ⟨rfl, ?_, ?_⟩
    · by_cases hpos : 0 < |a| <;> simp [hpos]
    · by_cases hpos : 0 < |a| <;> simp [hpos]
  · simp [processCsvRow, h, abs_neg]

/-- A concrete CSV row whose amount parses to 7. -/
def csvRowScenario : CsvRow :=
  { description := some "Uber ride", memo := none, transaction := none,
    amountParsed := some 7, dateField := some 5 }

/-- Witness for the C6 theorem at a concrete row with parsed amount 7. -/
theorem csv_kind_from_absolute_amount_witness :
    csvRowScenario.amountParsed = some 7 ∧
    (processCsvRow "u1" 9 csvRowScenario).isSome = true ∧
    processCsvRow "u1" 9 { csvRowScenario with amountParsed := some (-7) } =
      processCsvRow "u1" 9 csvRowScenario :=
  ⟨rfl, (csv_kind_from_absolute_amount "u1" 9 csvRowScenario 7 rfl).1,
   (csv_kind_from_absolute_amount "u1" 9 csvRowScenario 7 rfl).2.2⟩

/-- Mapping a function that fixes every element of a list is the
identity. -/
theorem map_id_of_mem {α : Type} (l : List α) (f : α → α)
    (h : ∀ x ∈ l, f x = x) : l.map f = l := by
  induction l with
  | nil => rfl
  | cons x xs ih =>
      rw [List.map_cons, h x (List.mem_cons_self x xs),
        ih (fun y hy => h y (List.mem_cons_of_mem x hy))]

/-- Every transaction returned by read-by-owner belongs to the requested
owner. -/
theorem mem_getUserTransactions (s : Storage) (u : String)
    (limitOpt : Option Nat) (t : Transaction)
    (ht : t ∈ getUserTransactions s u limitOpt) : t.userId = u := by
  have h1 : t ∈ sortKeyDesc (fun t => t.date)
      (s.transactions.filter (fun t => t.userId == u)) :=
    List.mem_of_mem_take ht
  have h2 := (mem_sortKeyDesc _ t _).mp h1
  have h3 := List.mem_filter.mp h2
  exact beq_iff_eq.mp h3.2

/-- C1: ownership isolation over the transactions table — a read scoped to
U2 never returns a record of U1, U2's updates and deletes leave every
record of U1 in place, and an update or delete whose identifier matches no
record owned by U2 yields the not-found outcome (undefined result / false
success flag) with the stored record set unchanged. -/
theorem ownership_isolation (s : Storage) (tid u1 u2 : String)
    (p : TransactionPatch) (limitOpt : Option Nat) (hne : u1 ≠ u2) :
    (∀ t, getTransaction s tid u2 = some t → t.userId ≠ u1) ∧
    (∀ t ∈ getUserTransactions s u2 limitOpt, t.userId ≠ u1) ∧
    (∀ t ∈ s.transactions, t.userId = u1 →
      t ∈ (updateTransaction s tid u2 p).2.transactions) ∧
    (∀ t ∈ s.transactions, t.userId = u1 →
      t ∈ (deleteTransaction s tid u2).2.transactions) ∧
    ((∀ t ∈ s.transactions, ¬(t.id = tid ∧ t.userId = u2)) →
      updateTransaction s tid u2 p = (none, s) ∧
      deleteTransaction s tid u2 = (false, s)) := by
  refine ⟨?_, ?_, ?_, ?_, ?_⟩
  · intro t ht hcon
    rw [getTransaction] at ht
    have hp := List.find?_some ht
    rw [Bool.and_eq_true, beq_iff_eq, beq_iff_eq] at hp
    exact hne (hcon ▸ hp.2)
  · intro t ht hcon
    exact hne (hcon ▸ mem_getUserTransactions s u2 limitOpt t ht)
  · intro t ht hu1
    simp only [updateTransaction]
    refine List.mem_map.mpr ⟨t, ht, ?_⟩
    have hb : (t.userId == u2) = false :=
      beq_eq_false_iff_ne.mpr (by rw [hu1]; exact hne)
    simp [hb]
  · intro t ht hu1
    simp only [deleteTransaction]
    have hb : (t.userId == u2) = false :=
      beq_eq_false_iff_ne.mpr (by rw [hu1]; exact hne)
    exact List.mem_filter.mpr ⟨ht, by simp [hb]⟩
  · intro hnone
    have hcond : ∀ t ∈ s.transactions,
        (t.id == tid && t.userId == u2) = false := by
      intro t ht
      refine Bool.eq_false_iff.mpr fun hb => ?_
      rw [Bool.and_eq_true, beq_iff_eq, beq_iff_eq] at hb
      exact hnone t ht hb
    have hmap : s.transactions.map (fun t =>
        if t.id == tid && t.userId == u2 then applyTransactionPatch p t
        else t) = s.transactions :=
      map_id_of_mem _ _ (fun t ht => by rw [hcond t ht]; rfl)
    have hfind : s.transactions.find? (fun t =>
        t.id == tid && t.userId == u2) = none :=
      List.find?_eq_none.mpr (fun t ht hb => by rw [hcond t ht] at hb; cases hb)
    constructor
    · simp only [updateTransaction, hmap, getTransaction]
      rw [Prod.mk.injEq]
      exact ⟨hfind, rfl⟩
    · have hfilter : s.transactions.filter (fun t =>
          !(t.id == tid && t.userId == u2)) = s.transactions :=
        List.filter_eq_self.mpr (fun t ht => by rw [hcond t ht]; rfl)
      simp only [deleteTransaction, hfilter]
      rw [Prod.mk.injEq]
      exact ⟨by simp, rfl⟩

/-- Storage holding a single transaction owned by user u1. -/
def isolationStorage : Storage :=
  { users := [], transactions :=
      [{ id := "a", userId := "u1", description := "salary", amount := 5,
         category := "Other", type := "income", date := 1, createdAt := 1 }],
    investments := [], goals := [], savingsTips := [] }

/-- Witness for the C1 theorem: user u2 updating or deleting u1's record
gets the not-found outcome and the stored set is unchanged. -/
theorem ownership_isolation_witness :
    ("u1" : String) ≠ "u2" ∧
    updateTransaction isolationStorage "a" "u2" emptyTransactionPatch =
      (none, isolationStorage) ∧
    deleteTransaction isolationStorage "a" "u2" = (false, isolationStorage) := by
  have h := ownership_isolation isolationStorage "a" "u1" "u2"
    emptyTransactionPatch none (by decide)
  exact ⟨by decide, (h.2.2.2.2 (by decide)).1, (h.2.2.2.2 (by decide)).2⟩

/-- Parsing a transaction body always yields the injected owner. -/
theorem parseInsertTransaction_userId (b : TransactionBody) (u : String)
    (it : InsertTransaction) (h : parseInsertTransaction b u = some it) :
    it.userId = u := by
  unfold parseInsertTransaction at h
  split at h
  · simp only [Option.some.injEq] at h
    subst h
    rfl
  · exact Option.noConfusion h

/-- Parsing an investment body always yields the injected owner. -/
theorem parseInsertInvestment_userId (b : InvestmentBody) (u : String)
    (ii : InsertInvestment) (h : parseInsertInvestment b u = some ii) :
    ii.userId = u := by
  unfold parseInsertInvestment at h
  split at h
  · simp only [Option.some.injEq] at h
    subst h
    rfl
  · exact Option.noConfusion h

/-- Parsing a goal body always yields the injected owner. -/
theorem parseInsertGoal_userId (b : GoalBody) (u : String)
    (ig : InsertGoal) (h : parseInsertGoal b u = some ig) :
    ig.userId = u := by
  unfold parseInsertGoal at h
  split at h
  · simp only [Option.some.injEq] at h
    subst h
    rfl
  · exact Option.noConfusion h

/-- C2: a record stored by an authenticated create route carries the
caller's identifier as owner, the stored set grows by exactly that
record, and the client-supplied owner field is ignored: replacing it
changes nothing about the outcome. -/
theorem created_records_owned_by_caller (s : Storage) (auth : String)
    (tb : TransactionBody) (ib : InvestmentBody) (gb : GoalBody)
    (fid : String) (now : Nat) :
    (∀ t s2, createTransactionRoute s auth tb fid now = (some t, s2) →
      t.userId = auth ∧ s2.transactions = s.transactions ++ [t]) ∧
    (∀ v, createTransactionRoute s auth { tb with userId := v } fid now =
      createTransactionRoute s auth tb fid now) ∧
    (∀ i s2, createInvestmentRoute s auth ib fid now = (some i, s2) →
      i.userId = auth ∧ s2.investments = s.investments ++ [i]) ∧
    (∀ v, createInvestmentRoute s auth { ib with userId := v } fid now =
      createInvestmentRoute s auth ib fid now) ∧
    (∀ g s2, createGoalRoute s auth gb fid now = (some g, s2) →
      g.userId = auth ∧ s2.goals = s.goals ++ [g]) ∧
    (∀ v, createGoalRoute s auth { gb with userId := v } fid now =
      createGoalRoute s auth gb fid now) := by
  refine ⟨?_, fun v => rfl, ?_, fun v => rfl, ?_, fun v => rfl⟩
  · intro t s2 h
    cases hp : parseInsertTransaction tb auth with
    | none => simp [createTransactionRoute, hp] at h
    | some it =>
        simp only [createTransactionRoute, hp, createTransaction,
          Prod.mk.injEq, Option.some.injEq] at h
        obtain ⟨h1, h2⟩ := h
        subst h1
        subst h2
        exact ⟨parseInsertTransaction_userId tb auth it hp, rfl⟩
  · intro i s2 h
    cases hp : parseInsertInvestment ib auth with
    | none => simp [createInvestmentRoute, hp] at h
    | some ii =>
        simp only [createInvestmentRoute, hp, createInvestment,
          Prod.mk.injEq, Option.some.injEq] at h
        obtain ⟨h1, h2⟩ := h
        subst h1
        subst h2
        exact ⟨parseInsertInvestment_userId ib auth ii hp, rfl⟩
  · intro g s2 h
    cases hp : parseInsertGoal gb auth with
    | none => simp [createGoalRoute, hp] at h
    | some ig =>
        simp only [createGoalRoute, hp, createGoal,
          Prod.mk.injEq, Option.some.injEq] at h
        obtain ⟨h1, h2⟩ := h
        subst h1
        subst h2
        exact ⟨parseInsertGoal_userId gb auth ig hp, rfl⟩

/-- The empty database. -/
def emptyStorage : Storage :=
  { users := [], transactions := [], investments := [], goals := [],
    savingsTips := [] }

/-- A transaction request body in which the client claims owner
"mallory". -/
def transactionBodyScenario : TransactionBody :=
  { userId := some "mallory", description := some "Lunch",
    amount := some 12, category := some "Food", type := some "expense",
    date := some 4 }

/-- An investment request body in which the client claims owner
"mallory". -/
def investmentBodyScenario : InvestmentBody :=
  { userId := some "mallory", symbol := some "ACME", name := some "Acme",
    type := some "stock", shares := some 10, purchasePrice := some 100,
    currentPrice := some 150, purchaseDate := some 2 }

/-- A goal request body in which the client claims owner "mallory". -/
def goalBodyScenario : GoalBody :=
  { userId := some "mallory", title := some "Trip", description := none,
    targetAmount := some 1000, currentAmount := none,
    targetDate := some 30, category := some "travel" }

/-- The transaction stored for the scenario body when "alice" is the
authenticated caller: owner "alice", not "mallory". -/
def expectedTransaction : Transaction :=
  { id := "id1", userId := "alice", description := "Lunch", amount := 12,
    category := "Food", type := "expense", date := 4, createdAt := 7 }

/-- Witness for the C2 theorem: caller "alice" stores the scenario body;
the stored owner is "alice" even though the body claims "mallory", and
replacing the body's owner by "bob" changes nothing. -/
theorem created_records_owned_by_caller_witness :
    createTransactionRoute emptyStorage "alice" transactionBodyScenario
      "id1" 7 =
      (some expectedTransaction,
       { emptyStorage with transactions := [expectedTransaction] }) ∧
    expectedTransaction.userId = "alice" ∧
    createTransactionRoute emptyStorage "alice"
      { transactionBodyScenario with userId := some "bob" } "id1" 7 =
      createTransactionRoute emptyStorage "alice" transactionBodyScenario
        "id1" 7 := by
  refine ⟨rfl, ?_, ?_⟩
  · exact ((created_records_owned_by_caller emptyStorage "alice"
      transactionBodyScenario investmentBodyScenario goalBodyScenario
      "id1" 7).1 expectedTransaction
      { emptyStorage with transactions := [expectedTransaction] } rfl).1
  · exact (created_records_owned_by_caller emptyStorage "alice"
      transactionBodyScenario investmentBodyScenario goalBodyScenario
      "id1" 7).2.1 (some "bob")

/-- The transaction produced from a CSV row is owned by the uploading
user. -/
theorem processCsvRow_userId (u : String) (today : Nat) (row : CsvRow)
    (it : InsertTransaction) (h : processCsvRow u today row = some it) :
    it.userId = u := by
  simp only [processCsvRow] at h
  cases ha : row.amountParsed with
  | none => rw [ha] at h; exact Option.noConfusion h
  | some a =>
      rw [ha] at h
      simp only [Option.some.injEq] at h
      subst h
      rfl

/-- C7: the upload loop skips failing rows and stores the others — the
reported saved count equals the number of rows that parse, the stored
transaction count grows by exactly that number, and so does the count of
the uploading user's transactions (failing rows store nothing). -/
theorem csv_saved_count (userId : String) (today : Nat)
    (gen : Nat → String) (now : Nat) (rows : List CsvRow) (k : Nat)
    (s : Storage) :
    (processCsvRows userId today gen now rows k s).1 =
      (rows.filter (fun r => (processCsvRow userId today r).isSome)).length ∧
    (processCsvRows userId today gen now rows k s).2.transactions.length =
      s.transactions.length + (processCsvRows userId today gen now rows k s).1 ∧
    ((processCsvRows userId today gen now rows k s).2.transactions.filter
        (fun t => t.userId == userId)).length =
      (s.transactions.filter (fun t => t.userId == userId)).length +
        (processCsvRows userId today gen now rows k s).1 := by
  induction rows generalizing k s with
  | nil => simp [processCsvRows]
  | cons row rest ih =>
      cases hr : processCsvRow userId today row with
      | none =>
          obtain ⟨ih1, ih2, ih3⟩ := ih (k + 1) s
          simp only [processCsvRows, hr]
          refine ⟨?_, ih2, ih3⟩
          rw [List.filter_cons]
          simp [hr, ih1]
      | some it =>
          have hu := processCsvRow_userId userId today row it hr
          simp only [processCsvRows, hr, createTransaction]
          obtain ⟨ih1, ih2, ih3⟩ := ih (k + 1)
            { s with transactions := s.transactions ++
                [{ id := gen k, userId := it.userId,
                   description := it.description, amount := it.amount,
                   category := it.category, type := it.type,
                   date := it.date, createdAt := now }] }
          refine ⟨?_, ?_, ?_⟩
          · rw [List.filter_cons]
            simp [hr, ih1]
          · rw [ih2]
            simp only [List.length_append, List.length_cons,
              List.length_nil]
            omega
          · rw [ih3]
            simp only [List.filter_append, List.length_append,
              List.filter_cons, List.filter_nil, hu, beq_self_eq_true,
              if_true, List.length_cons, List.length_nil]
            omega

/-- An active savings tip created first, with full confidence. -/
def tipOldHighConfidence : SavingsTip :=
  { id := "tip1", userId := "u", category := "Food",
    recommendation := "cook at home", potentialSavings := 50,
    confidence := 1, isActive := true, createdAt := 1 }

/-- An active savings tip created later, with zero confidence. -/
def tipNewLowConfidence : SavingsTip :=
  { id := "tip2", userId := "u", category := "Transport",
    recommendation := "bike to work", potentialSavings := 20,
    confidence := 0, isActive := true, createdAt := 2 }

/-- An inactive savings tip, the newest of the three. -/
def tipInactive : SavingsTip :=
  { id := "tip3", userId := "u", category := "Shopping",
    recommendation := "pause subscriptions", potentialSavings := 10,
    confidence := 1, isActive := false, createdAt := 3 }

/-- Storage with the three savings tips above, all owned by "u". -/
def tipsStorage : Storage :=
  { users := [], transactions := [], investments := [], goals := [],
    savingsTips := [tipOldHighConfidence, tipNewLowConfidence, tipInactive] }

/-- Fifty-one transactions owned by "u" with distinct dates. -/
def manyTransactions : List Transaction :=
  (List.range 51).map (fun k =>
    { id := "t", userId := "u", description := "d", amount := 0,
      category := "c", type := "expense", date := k, createdAt := k })

/-- Storage holding the fifty-one transactions of "u". -/
def manyTxStorage : Storage :=
  { users := [], transactions := manyTransactions, investments := [],
    goals := [], savingsTips := [] }

/-- C8 counterexample: read-by-owner for savings tips returns only the
active tips ordered by confidence descending, not all of the user's tips
ordered by creation time descending; and with no limit supplied,
read-by-owner for transactions returns 50 of the user's 51 records, not
all of them. -/
theorem read_by_owner_counterexample :
    getUserSavingsTips tipsStorage "u" =
      [tipOldHighConfidence, tipNewLowConfidence] ∧
    sortKeyDesc (fun t => t.createdAt)
      (tipsStorage.savingsTips.filter (fun t => t.userId == "u")) =
      [tipInactive, tipNewLowConfidence, tipOldHighConfidence] ∧
    getUserSavingsTips tipsStorage "u" ≠
      sortKeyDesc (fun t => t.createdAt)
        (tipsStorage.savingsTips.filter (fun t => t.userId == "u")) ∧
    (manyTxStorage.transactions.filter (fun t => t.userId == "u")).length
      = 51 ∧
    (getUserTransactions manyTxStorage "u" none).length = 50 := by
  refine ⟨by decide, by decide, by decide, by decide, by decide⟩

/-- C8 (amended): read-by-owner for transactions returns at most the
supplied limit — at most 50 when none is supplied — of the user's own
records, ordered by date descending; investments and goals return exactly
the user's records ordered by creation time descending; savings tips
return exactly the user's active tips ordered by confidence descending. -/
theorem read_by_owner (s : Storage) (u : String) (limitOpt : Option Nat) :
    (getUserTransactions s u limitOpt).length ≤ limitOpt.getD 50 ∧
    (∀ t ∈ getUserTransactions s u limitOpt, t.userId = u) ∧
    List.Pairwise (fun a b => b.date ≤ a.date)
      (getUserTransactions s u limitOpt) ∧
    (getUserInvestments s u).Perm
      (s.investments.filter (fun i => i.userId == u)) ∧
    List.Pairwise (fun a b => b.createdAt ≤ a.createdAt)
      (getUserInvestments s u) ∧
    (getUserGoals s u).Perm (s.goals.filter (fun g => g.userId == u)) ∧
    List.Pairwise (fun a b => b.createdAt ≤ a.createdAt)
      (getUserGoals s u) ∧
    (getUserSavingsTips s u).Perm
      (s.savingsTips.filter (fun t => t.userId == u && t.isActive)) ∧
    List.Pairwise (fun a b => b.confidence ≤ a.confidence)
      (getUserSavingsTips s u) := by
  refine ⟨List.length_take_le _ _, mem_getUserTransactions s u limitOpt,
    (sortKeyDesc_pairwise _ _).sublist (List.take_sublist _ _),
    sortKeyDesc_perm _ _, sortKeyDesc_pairwise _ _,
    sortKeyDesc_perm _ _, sortKeyDesc_pairwise _ _,
    sortKeyDesc_perm _ _, sortKeyDesc_pairwise _ _⟩

/-- Witness for the amended C8 theorem at the two concrete storages. -/
theorem read_by_owner_witness :
    (getUserTransactions manyTxStorage "u" none).length ≤ 50 ∧
    (getUserSavingsTips tipsStorage "u").Perm
      (tipsStorage.savingsTips.filter (fun t => t.userId == "u" &&
        t.isActive)) :=
  ⟨(read_by_owner manyTxStorage "u" none).1,
   (read_by_owner tipsStorage "u" none).2.2.2.2.2.2.2.1⟩

/-- The user row produced by a successful registration: fresh id, the
submitted fields, and the hashed password. -/
def registeredUser (iu : InsertUser) (fid now : String) : User :=
  { id := fid, email := iu.email, password := hashPassword iu.password,
    firstName := iu.firstName, lastName := iu.lastName, createdAt := now }

/-- C9: registration with a malformed body or an already-registered email
answers 400 with the user store unchanged and no token issued; with a
fresh email it appends exactly one user whose stored password is the hash
of the submitted password, answering 200 with a token. -/
theorem register_unique_email (s : Storage) (body : RegisterBody)
    (fid : String) (now : String) :
    (parseInsertUser body = none →
      registerRoute s body fid now =
        ({ status := 400, user := none, token := none }, s)) ∧
    (∀ iu, parseInsertUser body = some iu →
      (getUserByEmail s iu.email).isSome = true →
      registerRoute s body fid now =
        ({ status := 400, user := none, token := none }, s)) ∧
    (∀ iu, parseInsertUser body = some iu →
      getUserByEmail s iu.email = none →
      (registerRoute s body fid now).2.users =
        s.users ++ [registeredUser iu fid now] ∧
      (registeredUser iu fid now).password = hashPassword iu.password ∧
      (registerRoute s body fid now).1.status = 200 ∧
      (registerRoute s body fid now).1.token =
        some (generateToken fid)) := by
  refine ⟨?_, ?_, ?_⟩
  · intro hp
    simp [registerRoute, hp]
  · intro iu hp hsome
    cases hg : getUserByEmail s iu.email with
    | none => rw [hg] at hsome; exact Bool.noConfusion hsome
    | some u => simp [registerRoute, hp, hg]
  · intro iu hp hg
    refine ⟨?_, rfl, ?_, ?_⟩ <;>
      simp [registerRoute, hp, hg, createUser, registeredUser]

/-- A registered user whose email is a@x.com. -/
def existingUser : User :=
  { id := "u0", email := "a@x.com", password := "digest.pw123456",
    firstName := "A", lastName := "B", createdAt := "2024" }

/-- Storage holding only `existingUser`. -/
def oneUserStorage : Storage :=
  { users := [existingUser], transactions := [], investments := [],
    goals := [], savingsTips := [] }

/-- A registration body re-using the taken email a@x.com. -/
def duplicateRegisterBody : RegisterBody :=
  { email := some "a@x.com", password := some "pw123456",
    firstName := some "A", lastName := some "B" }

/-- The parsed duplicate registration body. -/
def parsedDuplicate : InsertUser :=
  { email := "a@x.com", password := "pw123456", firstName := "A",
    lastName := "B" }

/-- A registration body with an email no user has. -/
def freshRegisterBody : RegisterBody :=
  { email := some "new@x.com", password := some "secret99",
    firstName := some "N", lastName := some "M" }

/-- The parsed fresh registration body. -/
def parsedFresh : InsertUser :=
  { email := "new@x.com", password := "secret99", firstName := "N",
    lastName := "M" }

/-- Witness for the C9 theorem: the duplicate email is rejected with 400
and no change, the fresh email appends exactly the hashed-password user. -/
theorem register_unique_email_witness :
    parseInsertUser duplicateRegisterBody = some parsedDuplicate ∧
    (getUserByEmail oneUserStorage parsedDuplicate.email).isSome = true ∧
    registerRoute oneUserStorage duplicateRegisterBody "u1" "2025" =
      ({ status := 400, user := none, token := none }, oneUserStorage) ∧
    (registerRoute oneUserStorage freshRegisterBody "u1" "2025").2.users =
      oneUserStorage.users ++ [registeredUser parsedFresh "u1" "2025"] := by
  refine ⟨rfl, rfl, ?_, ?_⟩
  · exact (register_unique_email oneUserStorage duplicateRegisterBody
      "u1" "2025").2.1 parsedDuplicate rfl rfl
  · exact ((register_unique_email oneUserStorage freshRegisterBody
      "u1" "2025").2.2 parsedFresh rfl rfl).1

/-- Keys of a password-stripped user payload: the password key is gone. -/
theorem stripPassword_keys (u : User) :
    "password" ∉ (stripPassword u).map Prod.fst := by
  simp [stripPassword]

/-- Values of a password-stripped user payload are exactly the non-secret
stored fields. -/
theorem stripPassword_values (u : User) (x : String)
    (h : x ∉ [u.id, u.email, u.firstName, u.lastName, u.createdAt]) :
    x ∉ (stripPassword u).map Prod.snd := by
  simpa [stripPassword] using h

/-- C10: none of the register, login or current-user responses carries a
"password" key, and — as long as the digest string does not coincide with
one of the non-secret stored fields — the stored password digest never
appears among the response values either. -/
theorem password_digest_not_in_responses (s : Storage)
    (rb : RegisterBody) (lb : LoginBody) (uid fid : String)
    (now : String) :
    (∀ kv, (registerRoute s rb fid now).1.user = some kv →
      "password" ∉ kv.map Prod.fst) ∧
    (∀ iu kv, parseInsertUser rb = some iu →
      (registerRoute s rb fid now).1.user = some kv →
      hashPassword iu.password ∉
        [fid, iu.email, iu.firstName, iu.lastName, now] →
      hashPassword iu.password ∉ kv.map Prod.snd) ∧
    (∀ kv, (loginRoute s lb).user = some kv →
      "password" ∉ kv.map Prod.fst) ∧
    (∀ e p u kv, parseLogin lb = some (e, p) →
      getUserByEmail s e = some u →
      (loginRoute s lb).user = some kv →
      u.password ∉ [u.id, u.email, u.firstName, u.lastName, u.createdAt] →
      u.password ∉ kv.map Prod.snd) ∧
    (∀ kv, (meRoute s uid).user = some kv →
      "password" ∉ kv.map Prod.fst) ∧
    (∀ u kv, getUser s uid = some u →
      (meRoute s uid).user = some kv →
      u.password ∉ [u.id, u.email, u.firstName, u.lastName, u.createdAt] →
      u.password ∉ kv.map Prod.snd) := by
  refine ⟨?_, ?_, ?_, ?_, ?_, ?_⟩
  · intro kv h
    cases hp : parseInsertUser rb with
    | none => simp [registerRoute, hp] at h
    | some iu =>
        cases hg : getUserByEmail s iu.email with
        | some u => simp [registerRoute, hp, hg] at h
        | none =>
            simp only [registerRoute, hp, hg, createUser,
              Option.some.injEq] at h
            subst h
            exact stripPassword_keys _
  · intro iu kv hp h hdist
    cases hg : getUserByEmail s iu.email with
    | some u => simp [registerRoute, hp, hg] at h
    | none =>
        simp only [registerRoute, hp, hg, createUser,
          Option.some.injEq] at h
        subst h
        exact stripPassword_values
          { id := fid, email := iu.email,
            password := hashPassword iu.password,
            firstName := iu.firstName, lastName := iu.lastName,
            createdAt := now } _ hdist
  · intro kv h
    cases hl : parseLogin lb with
    | none => simp [loginRoute, hl] at h
    | some ep =>
        obtain ⟨e, p⟩ := ep
        cases hg : getUserByEmail s e with
        | none => simp [loginRoute, hl, hg] at h
        | some u =>
            by_cases hv : verifyPassword p u.password = true
            · simp only [loginRoute, hl, hg, if_pos hv,
                Option.some.injEq] at h
              subst h
              exact stripPassword_keys u
            · simp [loginRoute, hl, hg, hv] at h
  · intro e p u kv hl hg h hdist
    cases hv : verifyPassword p u.password with
    | false => simp [loginRoute, hl, hg, hv] at h
    | true =>
        simp only [loginRoute, hl, hg, hv, if_true, Option.some.injEq] at h
        subst h
        exact stripPassword_values u _ hdist
  · intro kv h
    cases hu : getUser s uid with
    | none => simp [meRoute, hu] at h
    | some u =>
        simp only [meRoute, hu, Option.some.injEq] at h
        subst h
        exact stripPassword_keys u
  · intro u kv hu h hdist
    rw [meRoute, hu] at h
    simp only [Option.some.injEq] at h
    subst h
    exact stripPassword_values u _ hdist

/-- A stored user with a password digest distinct from every other field. -/
def meUser : User :=
  { id := "u7", email := "me@x.com", password := "digest.topsecret",
    firstName := "Mia", lastName := "Lee", createdAt := "2024" }

/-- Storage holding only `meUser`. -/
def meStorage : Storage :=
  { users := [meUser], transactions := [], investments := [], goals := [],
    savingsTips := [] }

/-- Witness for the C10 theorem at the current-user endpoint for the
stored user u7. -/
theorem password_digest_not_in_responses_witness :
    "password" ∉ (stripPassword meUser).map Prod.fst ∧
    meUser.password ∉ (stripPassword meUser).map Prod.snd := by
  have h := password_digest_not_in_responses meStorage
    { email := none, password := none, firstName := none, lastName := none }
    { email := none, password := none } "u7" "f" "n"
  exact ⟨h.2.2.2.2.1 (stripPassword meUser) rfl,
    h.2.2.2.2.2 meUser (stripPassword meUser) rfl rfl (by decide)⟩

end FinSight
